import Mathlib

/-!
Verification of the Telegram bot in bot.js against its specification.

The source is a single file of glue code: five command handlers calling
three external services (Solana RPC, Solscan metadata API, CoinGecko
price API).  We embed it shallowly:

* external services are an oracle record `Net`: each outbound endpoint
  is a function from the request arguments to an `Except String` result,
  the error string standing for the message of the rejected promise
  (JS `error.message`);
* observable effects (outbound network calls, log lines, chat replies)
  are collected in an event trace `List Ev`; every function of the
  source returns its value together with the events it emitted, in
  program order;
* each `Ev.call` event records whether the call site was routed through
  the Bottleneck rate limiter (`limiter.schedule`): in the source no
  call site is, so every emission site carries `false`;
* JS numbers are modelled as `Rat` (the claims under study never depend
  on binary floating-point rounding, only on which arithmetic is
  performed), and number-to-string rendering is abstracted by `toString`;
* the `PublicKey` constructor of the @solana/web3.js dependency is
  modelled by an executable base58 decoder: a string parses iff all its
  characters are in the base58 alphabet and it decodes to exactly 32
  bytes, the two failure messages being the ones the library throws.
-/

deriving instance DecidableEq for Except

/-- Options object passed to the Bottleneck constructor at bot.js lines
31-34: minimum spacing 300 ms between starts, at most 5 concurrent. -/
structure BottleneckOptions where
  minTime : Nat
  maxConcurrent : Nat
deriving DecidableEq

/-- The rate limiter constructed at bot.js line 31.  It is constructed
with these options and then never referenced again in the file: no call
site invokes limiter.schedule. -/
def limiter : BottleneckOptions := ⟨300, 5⟩

/-- Token metadata returned by the Solscan API (the fields the bot
reads: response.data.data.name and .symbol). -/
structure TokenInfo where
  name : String
  symbol : String
deriving DecidableEq

/-- The slice of a token account the bot reads at bot.js line 57:
account.data.parsed.info.tokenAmount.uiAmount, which may be null. -/
structure TokenAccountInfo where
  uiAmount : Option Rat
deriving DecidableEq

/-- One entry of the CoinGecko /coins/markets response; the bot reads
coin.id and coin.current_price (bot.js lines 74-76). -/
structure Coin where
  id : String
  current_price : Rat
deriving DecidableEq

/-- Oracle for the external world: one function per outbound endpoint
the source calls.  An `Except.error` models a rejected promise / thrown
error, carrying the JS error message. -/
structure Net where
  solscanTokenInfo : String → Except String TokenInfo
  getTokenAccountsByOwner : String → String → Except String (List TokenAccountInfo)
  coingeckoMarkets : String → String → Except String (List Coin)
  getRecentBlockhash : Except String Rat
  getBalance : String → Except String Rat

/-- Observable events, in program order: outbound network calls (with
the flag saying whether the site is wrapped in limiter.schedule), log
lines, and chat replies via ctx.reply. -/
inductive Ev
  | call (site : String) (callArgs : List String) (viaLimiter : Bool)
  | log (level : String) (msg : String)
  | reply (msg : String)
deriving DecidableEq

def siteSolscan : String := "axios.get solscan tokenInfo"
def siteTokenAccounts : String := "connection.getTokenAccountsByOwner"
def siteMarkets : String := "axios.get coingecko coins-markets"
def siteBlockhash : String := "connection.getRecentBlockhash"
def siteGetBalance : String := "connection.getBalance"

/-- Whether an event is an outbound call routed through the limiter. -/
def limiterFlag : Ev → Bool
  | Ev.call _ _ b => b
  | _ => false

def isCall : Ev → Bool
  | Ev.call _ _ _ => true
  | _ => false

def isReply : Ev → Bool
  | Ev.reply _ => true
  | _ => false

def isMarketsCall : Ev → Bool
  | Ev.call s _ _ => s == siteMarkets
  | _ => false

/-- Sites of the outbound calls of a trace, in order. -/
def callSites (l : List Ev) : List String :=
  l.filterMap (fun e => match e with | Ev.call s _ _ => some s | _ => none)

/-- The base58 alphabet used by bs58 (no 0, O, I, l). -/
def base58Alphabet : List Char :=
  "123456789ABCDEFGHJKLMNPQRSTUVWXYZabcdefghijkmnopqrstuvwxyz".toList

def b58Digit (c : Char) : Option Nat :=
  base58Alphabet.findIdx? (fun d => d = c)

/-- Value of a base58 string read as a big-endian base-58 numeral;
`none` if some character is outside the alphabet. -/
def bs58DecodeVal (cs : List Char) : Option Nat :=
  cs.foldlM (fun acc c => (b58Digit c).map (fun d => acc * 58 + d)) 0

/-- Fuel-based byte counter: divides by 256 until zero.  The fuel n
always suffices since n shrinks by a factor of 256 per step. -/
def byteLenAux : Nat → Nat → Nat
  | 0, _ => 0
  | fuel + 1, n => if n = 0 then 0 else byteLenAux fuel (n / 256) + 1

/-- Number of bytes in the minimal big-endian representation of n. -/
def byteLen (n : Nat) : Nat := byteLenAux n n

/-- Length in bytes of the bs58 decoding of s: one zero byte per
leading 1 character, then the minimal bytes of the numeral value. -/
def bs58DecodedLen (s : String) : Option Nat :=
  (bs58DecodeVal s.toList).map
    (fun v => (s.toList.takeWhile (fun c => c = '1')).length + byteLen v)

/-- The new PublicKey(s) constructor of @solana/web3.js (a dependency,
not part of this repository): throws `Non-base58 character` on a
character outside the alphabet, `Invalid public key input` when the
decoded byte length is not 32; otherwise the key is valid.  Executable
model of the dependency; the repository itself never inspects the key
beyond passing it back to the RPC client, so the validated key is
represented by the original string. -/
def parsePubkey (s : String) : Except String String :=
  match bs58DecodedLen s with
  | none => Except.error "Non-base58 character"
  | some n => if n = 32 then Except.ok s else Except.error "Invalid public key input"

/-- bot.js lines 40-50: GET the Solscan token-info endpoint (directly
via axios, not through the limiter); on failure log and throw the
generic message. -/
def getTokenInfoFromSolscan (net : Net) (tokenAddress : String) :
    Except String TokenInfo × List Ev :=
  match net.solscanTokenInfo tokenAddress with
  | Except.ok d => (Except.ok d, [Ev.call siteSolscan [tokenAddress] false])
  | Except.error e =>
      (Except.error "Failed to fetch token info.",
       [Ev.call siteSolscan [tokenAddress] false,
        Ev.log "error" ("Error fetching token info from Solscan: " ++ e)])

/-- bot.js lines 53-62: parse the owner address, then the mint address
(both argument expressions of the getTokenAccountsByOwner call, so both
evaluated before the RPC request), then the RPC lookup; the single
catch block converts every failure, parse errors included, into the one
generic message.  On success the balance is
value[0]?...uiAmount || 0, i.e. 0 when there is no account or the
uiAmount is null. -/
def getTokenBalance (net : Net) (address tokenAddress : String) :
    Except String Rat × List Ev :=
  match parsePubkey address with
  | Except.error e =>
      (Except.error "Failed to fetch token balance.",
       [Ev.log "error" ("Error fetching token balance: " ++ e)])
  | Except.ok _ =>
    match parsePubkey tokenAddress with
    | Except.error e =>
        (Except.error "Failed to fetch token balance.",
         [Ev.log "error" ("Error fetching token balance: " ++ e)])
    | Except.ok _ =>
      match net.getTokenAccountsByOwner address tokenAddress with
      | Except.error e =>
          (Except.error "Failed to fetch token balance.",
           [Ev.call siteTokenAccounts [address, tokenAddress] false,
            Ev.log "error" ("Error fetching token balance: " ++ e)])
      | Except.ok accounts =>
          (Except.ok ((accounts.head?.bind (fun a => a.uiAmount)).getD 0),
           [Ev.call siteTokenAccounts [address, tokenAddress] false])

/-- bot.js lines 65-82: one GET of /coins/markets with the hardcoded
params vs_currency=usd and ids=solana,bitcoin,ethereum; the forEach
builds the id-to-price object (kept as the association list in response
order); any failure discards everything and throws the generic
message. -/
def getCryptoPrices (net : Net) : Except String (List (String × Rat)) × List Ev :=
  match net.coingeckoMarkets "usd" "solana,bitcoin,ethereum" with
  | Except.ok coins =>
      (Except.ok (coins.map (fun c => (c.id, c.current_price))),
       [Ev.call siteMarkets ["usd", "solana,bitcoin,ethereum"] false])
  | Except.error e =>
      (Except.error "Failed to fetch crypto prices.",
       [Ev.call siteMarkets ["usd", "solana,bitcoin,ethereum"] false,
        Ev.log "error" ("Error fetching crypto prices: " ++ e)])

/-- bot.js lines 85-94: fetch lamportsPerSignature and return it
divided by 1000000000 (the source comment reads Convert to SOL); on
failure log and throw the generic message. -/
def getSolanaGasFee (net : Net) : Except String Rat × List Ev :=
  match net.getRecentBlockhash with
  | Except.ok lps =>
      ((Except.ok (lps / 1000000000)), [Ev.call siteBlockhash [] false])
  | Except.error e =>
      (Except.error "Failed to get Solana gas fee.",
       [Ev.call siteBlockhash [] false,
        Ev.log "error" ("Error fetching gas fee: " ++ e)])

/-- The aggregate the orchestrator returns (bot.js lines 104-109). -/
structure Analysis where
  tokenInfo : TokenInfo
  balance : Rat
  prices : List (String × Rat)
  gasFee : Rat
deriving DecidableEq

/-- bot.js lines 97-114: sequential await chain tokenInfo, balance,
prices, gasFee; the single catch aborts on the first failure, logs the
caught message and throws the one generic message (the thrown error
does not carry the cause, which is only logged). -/
def analyzeToken (net : Net) (address tokenAddress : String) :
    Except String Analysis × List Ev :=
  match getTokenInfoFromSolscan net tokenAddress with
  | (Except.error e, t1) =>
      (Except.error "Failed to analyze token.",
       t1 ++ [Ev.log "error" ("Error during analysis: " ++ e)])
  | (Except.ok tokenInfo, t1) =>
    match getTokenBalance net address tokenAddress with
    | (Except.error e, t2) =>
        (Except.error "Failed to analyze token.",
         t1 ++ (t2 ++ [Ev.log "error" ("Error during analysis: " ++ e)]))
    | (Except.ok balance, t2) =>
      match getCryptoPrices net with
      | (Except.error e, t3) =>
          (Except.error "Failed to analyze token.",
           t1 ++ (t2 ++ (t3 ++ [Ev.log "error" ("Error during analysis: " ++ e)])))
      | (Except.ok prices, t3) =>
        match getSolanaGasFee net with
        | (Except.error e, t4) =>
            (Except.error "Failed to analyze token.",
             t1 ++ (t2 ++ (t3 ++ (t4 ++ [Ev.log "error" ("Error during analysis: " ++ e)]))))
        | (Except.ok gasFee, t4) =>
            (Except.ok ⟨tokenInfo, balance, prices, gasFee⟩,
             t1 ++ (t2 ++ (t3 ++ t4)))

/-- JS object lookup on the association list built by the forEach:
later assignments to the same key overwrite earlier ones. -/
def jsObjGet (ps : List (String × Rat)) (k : String) : Option Rat :=
  (ps.reverse.find? (fun p => p.1 == k)).map (fun p => p.2)

/-- Rendering of an interpolated possibly-absent number: a missing
object property prints as undefined. -/
def jsNumStr : Option Rat → String
  | none => "undefined"
  | some q => toString q

/-- Splitting a character list at every single space character, JS
String.prototype.split(' ') style: consecutive separators yield empty
pieces, and the empty input yields one empty piece. -/
def splitSpacesAux : List Char → List Char → List String
  | [], acc => [String.mk acc.reverse]
  | ' ' :: cs, acc => String.mk acc.reverse :: splitSpacesAux cs []
  | c :: cs, acc => splitSpacesAux cs (c :: acc)

/-- text.split(' '): split on every single space character. -/
def jsSplitSpace (s : String) : List String :=
  splitSpacesAux s.toList []

/-- ctx.message.text.split(' ').slice(1): split on every single space
(consecutive spaces yield empty strings) and drop the command word. -/
def parseArgs (text : String) : List String :=
  (jsSplitSpace text).drop 1

inductive Cmd
  | check
  | balance
  | prices
  | gas
  | help
deriving DecidableEq

/-- Which bot.command handler a message text is dispatched to: the
first space-separated token names the command. -/
def commandOf (text : String) : Option Cmd :=
  match (jsSplitSpace text).headD "" with
  | "/check" => some Cmd.check
  | "/balance" => some Cmd.balance
  | "/prices" => some Cmd.prices
  | "/gas" => some Cmd.gas
  | "/help" => some Cmd.help
  | _ => none

/-- The reply template of the check handler (bot.js lines 131-138);
note the price field reads analysis.prices.solana. -/
def checkReplyText (a : Analysis) : String :=
  "\n            🧾 **Token Analysis:**\n            - **Token Name**: " ++ (a.tokenInfo.name
  ++ ("\n            - **Token Symbol**: " ++ (a.tokenInfo.symbol
  ++ ("\n            - **Token Price**: $" ++ (jsNumStr (jsObjGet a.prices "solana")
  ++ ("\n            - **Your Balance**: " ++ (toString a.balance ++ (" " ++ (a.tokenInfo.symbol
  ++ ("\n            - **Gas Fee**: " ++ (toString a.gasFee ++ " SOL\n        ")))))))))))

/-- bot.js lines 120-142: the check handler.  Arity check first (the
usage reply), then an informational reply, then the orchestrator; both
the success template and the error reply are inside the try/catch. -/
def checkHandler (net : Net) (text : String) : List Ev :=
  let args := parseArgs text
  if args.length < 2 then
    [Ev.reply "❌ Usage: /check <TOKEN_ADDRESS> <SOLANA_ADDRESS>"]
  else
    let tokenAddress := args.getD 0 ""
    let address := args.getD 1 ""
    match analyzeToken net address tokenAddress with
    | (Except.ok a, tr) =>
        Ev.reply "🔍 Analyzing the token. Please wait..."
          :: (tr ++ [Ev.reply (checkReplyText a)])
    | (Except.error e, tr) =>
        Ev.reply "🔍 Analyzing the token. Please wait..."
          :: (tr ++ [Ev.reply ("❌ Error: " ++ e)])

/-- bot.js lines 145-158: the balance handler.  new PublicKey(address)
is evaluated inside the try before connection.getBalance, so a parse
failure reaches the catch directly with the parser message and no RPC
call is made. -/
def balanceHandler (net : Net) (text : String) : List Ev :=
  let args := parseArgs text
  if args.length < 1 then
    [Ev.reply "❌ Usage: /balance <SOLANA_ADDRESS>"]
  else
    let address := args.getD 0 ""
    match parsePubkey address with
    | Except.error e => [Ev.reply ("❌ Error: " ++ e)]
    | Except.ok _ =>
      match net.getBalance address with
      | Except.error e =>
          [Ev.call siteGetBalance [address] false,
           Ev.reply ("❌ Error: " ++ e)]
      | Except.ok lam =>
          [Ev.call siteGetBalance [address] false,
           Ev.reply ("📊 **Solana Balance**: " ++ toString (lam / 1000000000) ++ " SOL")]

/-- bot.js lines 161-173: the prices handler. -/
def pricesHandler (net : Net) : List Ev :=
  match getCryptoPrices net with
  | (Except.ok ps, tr) =>
      tr ++ [Ev.reply ("\n            💰 **Current Crypto Prices**:\n            - Solana: $" ++ (jsNumStr (jsObjGet ps "solana")
        ++ ("\n            - Bitcoin: $" ++ (jsNumStr (jsObjGet ps "bitcoin")
        ++ ("\n            - Ethereum: $" ++ (jsNumStr (jsObjGet ps "ethereum") ++ "\n        "))))))]
  | (Except.error e, tr) => tr ++ [Ev.reply ("❌ Error: " ++ e)]

/-- bot.js lines 176-183: the gas handler. -/
def gasHandler (net : Net) : List Ev :=
  match getSolanaGasFee net with
  | (Except.ok fee, tr) =>
      tr ++ [Ev.reply ("⛽ **Solana Gas Fee**: " ++ toString fee ++ " SOL per transaction")]
  | (Except.error e, tr) => tr ++ [Ev.reply ("❌ Error: " ++ e)]

/-- bot.js lines 186-196: the help handler: one fixed reply, no
external call. -/
def helpHandler : List Ev :=
  [Ev.reply "\n        🚀 **Solana Honeypot Checker Bot - Commands**:\n\n        /check <TOKEN_ADDRESS> <SOLANA_ADDRESS> - Analyze token info\n        /balance <SOLANA_ADDRESS> - Get Solana balance\n        /prices - Get current prices of Solana, Bitcoin, and Ethereum\n        /gas - Get Solana gas fees\n        /help - Display this help message\n    "]

/-- One inbound message: Telegraf dispatches to the matching handler;
a non-command message triggers nothing. -/
def dispatch (net : Net) (text : String) : List Ev :=
  match commandOf text with
  | some Cmd.check => checkHandler net text
  | some Cmd.balance => balanceHandler net text
  | some Cmd.prices => pricesHandler net
  | some Cmd.gas => gasHandler net
  | some Cmd.help => helpHandler
  | none => []

/-- The event loop: each inbound message is handled independently; no
handler outcome affects the handling of later messages. -/
def runBot (net : Net) (msgs : List String) : List (List Ev) :=
  msgs.map (dispatch net)

/-- Outcome of the startup expression at bot.js line 199.  `exited`
records whether the code requests process termination on that path
(process.exit, a rethrow, or leaving the rejection unhandled): the
source attaches a catch handler whose whole body is the logger call,
so no path requests termination. -/
structure StartupOutcome where
  logs : List (String × String)
  exited : Bool
deriving DecidableEq

/-- bot.js line 199: bot.launch().then(log info).catch(log error). -/
def launchContinuation : Except String Unit → StartupOutcome
  | Except.ok _ => ⟨[("info", "Bot is running")], false⟩
  | Except.error e => ⟨[("error", "Bot launch failed: " ++ e)], false⟩

/-- Concrete token metadata used by the sample oracles. -/
def tiFoo : TokenInfo := ⟨"Foo", "FOO"⟩

/-- Concrete market response used by the sample oracles. -/
def coinsOk : List Coin := [⟨"solana", 100⟩, ⟨"bitcoin", 200⟩, ⟨"ethereum", 300⟩]

/-- Oracle on which every upstream call succeeds. -/
def netOk : Net :=
  ⟨fun _ => Except.ok tiFoo,
   fun _ _ => Except.ok [⟨some 7⟩],
   fun _ _ => Except.ok coinsOk,
   Except.ok 5000,
   fun _ => Except.ok 2000000000⟩

/-- Oracle on which the owner has no token account for the mint. -/
def netEmpty : Net :=
  ⟨fun _ => Except.ok tiFoo,
   fun _ _ => Except.ok [],
   fun _ _ => Except.ok coinsOk,
   Except.ok 5000,
   fun _ => Except.ok 2000000000⟩

/-- Oracle on which the token-account RPC lookup fails. -/
def netBalFail : Net :=
  ⟨fun _ => Except.ok tiFoo,
   fun _ _ => Except.error "fetch failed",
   fun _ _ => Except.ok coinsOk,
   Except.ok 5000,
   fun _ => Except.ok 2000000000⟩

/-- Oracle on which the price API answers HTTP 500 (axios rejects with
this message). -/
def net500 : Net :=
  ⟨fun _ => Except.ok tiFoo,
   fun _ _ => Except.ok [⟨some 7⟩],
   fun _ _ => Except.error "Request failed with status code 500",
   Except.ok 5000,
   fun _ => Except.ok 2000000000⟩

/-- A well-formed address: 32 base58 ones decode to 32 zero bytes (the
system program address). -/
def addr32 : String := "11111111111111111111111111111111"

/-- Claim C1, counterexample: with the all-success oracle, the four
outbound external-service calls (token-metadata fetch, token-balance
lookup, price fetch, fee query) each emit exactly one call event, and
none of them is routed through the rate limiter. -/
theorem limiter_unused_cex :
    ((getTokenInfoFromSolscan netOk "m").2 ++ ((getTokenBalance netOk addr32 addr32).2
      ++ ((getCryptoPrices netOk).2 ++ (getSolanaGasFee netOk).2))).filter isCall
    = [Ev.call siteSolscan ["m"] false,
       Ev.call siteTokenAccounts [addr32, addr32] false,
       Ev.call siteMarkets ["usd", "solana,bitcoin,ethereum"] false,
       Ev.call siteBlockhash [] false] := by decide

/-- Claim C1, amended: the Bottleneck limiter is constructed with
minTime 300 ms and maxConcurrent 5, but it is dead configuration: no
outbound external-service call is routed through it (every call event
any of the four client operations can emit carries viaLimiter = false),
so the configured spacing and concurrency bounds are not imposed on any
call. -/
theorem limiter_configured_but_unused :
    limiter.minTime = 300 ∧ limiter.maxConcurrent = 5
  ∧ ∀ (net : Net) (t w : String),
      ((getTokenInfoFromSolscan net t).2 ++ ((getTokenBalance net w t).2
        ++ ((getCryptoPrices net).2 ++ (getSolanaGasFee net).2))).all
        (fun e => !(limiterFlag e)) = true := by
  refine ⟨rfl, rfl, ?_⟩
  intro net t w
  cases h1 : net.solscanTokenInfo t <;>
    cases h2 : parsePubkey w <;>
    cases h3 : parsePubkey t <;>
    cases h4 : net.getTokenAccountsByOwner w t <;>
    cases h5 : net.coingeckoMarkets "usd" "solana,bitcoin,ethereum" <;>
    cases h6 : net.getRecentBlockhash <;>
    simp [getTokenInfoFromSolscan, getTokenBalance, getCryptoPrices, getSolanaGasFee,
      h1, h2, h3, h4, h5, h6, limiterFlag]

/-- Claim C4: a well-formed wallet address with no token account for
the given (well-formed) mint makes getTokenBalance return 0, not an
error, whenever the RPC lookup itself succeeds with the empty account
list. -/
theorem token_balance_zero_when_no_account (net : Net) (w mint : String)
    (hw : ∃ pk, parsePubkey w = Except.ok pk)
    (hm : ∃ pk, parsePubkey mint = Except.ok pk)
    (hrpc : net.getTokenAccountsByOwner w mint = Except.ok []) :
    (getTokenBalance net w mint).1 = Except.ok 0 := by
  obtain ⟨pw, hw⟩ := hw
  obtain ⟨pm, hm⟩ := hm
  simp [getTokenBalance, hw, hm, hrpc]

/-- Witness for C4 at a concrete input: the system-program-style
address owns no account for the mint on the netEmpty oracle. -/
theorem token_balance_zero_when_no_account_witness :
    (getTokenBalance netEmpty addr32 addr32).1 = Except.ok 0 :=
  token_balance_zero_when_no_account netEmpty addr32 addr32
    ⟨addr32, by decide⟩ ⟨addr32, by decide⟩ rfl

/-- Claim C5, counterexample: with lamportsPerSignature = 5000 the
recent-fee operation returns 5000 / 10^9 (the source divides by 10^9,
its comment reads Convert to SOL), which is not the lamports value
5000: the fee is not expressed in the smallest native unit. -/
theorem gas_fee_unit_cex :
    (getSolanaGasFee netOk).1 = Except.ok ((5000 : Rat) / 1000000000)
  ∧ ¬ ((5000 : Rat) / 1000000000 = (5000 : Rat)) := by
  constructor
  · simp [getSolanaGasFee, netOk]
  · norm_num

/-- Claim C5, amended: the recent-fee operation returns the
lamports-per-signature fee divided by 10^9, i.e. expressed in SOL
rather than in lamports, and on RPC failure it fails with the single
generic message the source throws. -/
theorem gas_fee_in_sol (net : Net) :
    (∀ f, net.getRecentBlockhash = Except.ok f →
      (getSolanaGasFee net).1 = Except.ok (f / 1000000000))
  ∧ (∀ e, net.getRecentBlockhash = Except.error e →
      getSolanaGasFee net = (Except.error "Failed to get Solana gas fee.",
        [Ev.call siteBlockhash [] false,
         Ev.log "error" ("Error fetching gas fee: " ++ e)])) := by
  constructor
  · intro f hf
    simp [getSolanaGasFee, hf]
  · intro e he
    simp [getSolanaGasFee, he]

/-- Witness for C5 amended at concrete inputs, on both branches. -/
theorem gas_fee_in_sol_witness :
    (getSolanaGasFee netOk).1 = Except.ok ((5000 : Rat) / 1000000000) :=
  (gas_fee_in_sol netOk).1 5000 rfl

/-- Claim C8, counterexample: on a concrete launch failure the startup
expression only logs; it requests no process termination (the catch
handler swallows the rejection, there is no exit or rethrow), so launch
failure is not fatal, contradicting the claim that startup
terminates. -/
theorem launch_failure_not_fatal_cex :
    launchContinuation (Except.error "401: Unauthorized")
      = ⟨[("error", "Bot launch failed: 401: Unauthorized")], false⟩ := by decide

/-- Claim C8, amended: a bot-launch failure is caught and logged as
Bot launch failed: followed by the cause, and the handler performs no
termination action: the code never requests process exit, on failure
exactly as on success. -/
theorem launch_failure_logged_only :
    ∀ e, launchContinuation (Except.error e)
      = ⟨[("error", "Bot launch failed: " ++ e)], false⟩ := by
  intro e
  rfl

/-- Claim C2: analyzeToken runs its four sub-calls sequentially in the
order token metadata, token balance, prices, fee; it aborts at the
first failing sub-call (the trace is exactly the traces of the
sub-calls run so far, so no later sub-call is reached), yields no
partial result, and surfaces exactly one generic failure message, the
failing sub-call's cause appearing only in the analysis error log. -/
theorem analyzeToken_sequential (net : Net) (w t : String) :
    (∀ e t1, getTokenInfoFromSolscan net t = (Except.error e, t1) →
      analyzeToken net w t = (Except.error "Failed to analyze token.",
        t1 ++ [Ev.log "error" ("Error during analysis: " ++ e)]))
  ∧ (∀ ti t1 e t2, getTokenInfoFromSolscan net t = (Except.ok ti, t1) →
      getTokenBalance net w t = (Except.error e, t2) →
      analyzeToken net w t = (Except.error "Failed to analyze token.",
        t1 ++ (t2 ++ [Ev.log "error" ("Error during analysis: " ++ e)])))
  ∧ (∀ ti t1 b t2 e t3, getTokenInfoFromSolscan net t = (Except.ok ti, t1) →
      getTokenBalance net w t = (Except.ok b, t2) →
      getCryptoPrices net = (Except.error e, t3) →
      analyzeToken net w t = (Except.error "Failed to analyze token.",
        t1 ++ (t2 ++ (t3 ++ [Ev.log "error" ("Error during analysis: " ++ e)]))))
  ∧ (∀ ti t1 b t2 p t3 e t4, getTokenInfoFromSolscan net t = (Except.ok ti, t1) →
      getTokenBalance net w t = (Except.ok b, t2) →
      getCryptoPrices net = (Except.ok p, t3) →
      getSolanaGasFee net = (Except.error e, t4) →
      analyzeToken net w t = (Except.error "Failed to analyze token.",
        t1 ++ (t2 ++ (t3 ++ (t4 ++ [Ev.log "error" ("Error during analysis: " ++ e)])))))
  ∧ (∀ ti t1 b t2 p t3 g t4, getTokenInfoFromSolscan net t = (Except.ok ti, t1) →
      getTokenBalance net w t = (Except.ok b, t2) →
      getCryptoPrices net = (Except.ok p, t3) →
      getSolanaGasFee net = (Except.ok g, t4) →
      analyzeToken net w t = (Except.ok ⟨ti, b, p, g⟩,
        t1 ++ (t2 ++ (t3 ++ t4))))
  ∧ (∀ e tr, analyzeToken net w t = (Except.error e, tr) →
      e = "Failed to analyze token.") := by
  refine ⟨?_, ?_, ?_, ?_, ?_, ?_⟩
  · intro e t1 h1
    simp [analyzeToken, h1]
  · intro ti t1 e t2 h1 h2
    simp [analyzeToken, h1, h2]
  · intro ti t1 b t2 e t3 h1 h2 h3
    simp [analyzeToken, h1, h2, h3]
  · intro ti t1 b t2 p t3 e t4 h1 h2 h3 h4
    simp [analyzeToken, h1, h2, h3, h4]
  · intro ti t1 b t2 p t3 g t4 h1 h2 h3 h4
    simp [analyzeToken, h1, h2, h3, h4]
  · intro e tr h
    rcases h1 : getTokenInfoFromSolscan net t with ⟨r1, t1⟩
    rcases h2 : getTokenBalance net w t with ⟨r2, t2⟩
    rcases h3 : getCryptoPrices net with ⟨r3, t3⟩
    rcases h4 : getSolanaGasFee net with ⟨r4, t4⟩
    cases r1 <;> cases r2 <;> cases r3 <;> cases r4 <;>
      simp_all [analyzeToken]

/-- Witness for C2 at a concrete input: on netBalFail the second
sub-call (the balance lookup) fails, analysis aborts there with the one
generic error, and the trace shows no later sub-call. -/
theorem analyzeToken_sequential_witness :
    analyzeToken netBalFail addr32 addr32 = (Except.error "Failed to analyze token.",
      [Ev.call siteSolscan [addr32] false]
        ++ ([Ev.call siteTokenAccounts [addr32, addr32] false,
             Ev.log "error" ("Error fetching token balance: " ++ "fetch failed")]
        ++ [Ev.log "error" ("Error during analysis: " ++ "Failed to fetch token balance.")])) :=
  (analyzeToken_sequential netBalFail addr32 addr32).2.1 tiFoo
    [Ev.call siteSolscan [addr32] false]
    "Failed to fetch token balance."
    [Ev.call siteTokenAccounts [addr32, addr32] false,
     Ev.log "error" ("Error fetching token balance: " ++ "fetch failed")]
    rfl (by decide)

/-- Claim C3, counterexample: (1) on a malformed address the
token-balance lookup surfaces the generic message
Failed to fetch token balance., (2) the very same error a well-formed
address gets when the RPC call fails, so the failure is not a distinct
InvalidAddress error; and (3) analyze invoked with a malformed wallet
address still attempts the token-metadata network call before failing,
so it does not fail before any network call is attempted. -/
theorem invalid_address_cex :
    (getTokenBalance netOk "!!!" addr32).1 = Except.error "Failed to fetch token balance."
  ∧ (getTokenBalance netBalFail addr32 addr32).1 = Except.error "Failed to fetch token balance."
  ∧ callSites (analyzeToken netOk "!!!" addr32).2 = [siteSolscan] := by decide

/-- Claim C3, amended: a malformed address makes getTokenBalance fail
before its own RPC call (no call event is emitted), but with the
generic Failed to fetch token balance. message rather than a distinct
InvalidAddress error; the /balance handler fails before its RPC call
and surfaces the parser's own message; and analyze on a malformed
wallet address still attempts the token-metadata network call (and only
that one) before failing. -/
theorem invalid_address_behavior (net : Net) (addr mint e : String)
    (hbad : parsePubkey addr = Except.error e)
    (hargs : parseArgs ("/balance " ++ addr) = [addr]) :
    getTokenBalance net addr mint = (Except.error "Failed to fetch token balance.",
      [Ev.log "error" ("Error fetching token balance: " ++ e)])
  ∧ balanceHandler net ("/balance " ++ addr) = [Ev.reply ("❌ Error: " ++ e)]
  ∧ callSites (analyzeToken net addr mint).2 = callSites (getTokenInfoFromSolscan net mint).2 := by
  refine ⟨?_, ?_, ?_⟩
  · simp [getTokenBalance, hbad]
  · simp [balanceHandler, hargs, hbad]
  · cases h1 : net.solscanTokenInfo mint <;>
      simp [analyzeToken, getTokenInfoFromSolscan, getTokenBalance, hbad, h1, callSites]

/-- Witness for C3 amended at a concrete input: the address !!! does
not parse (it has characters outside the base58 alphabet). -/
theorem invalid_address_behavior_witness :
    getTokenBalance netOk "!!!" addr32 = (Except.error "Failed to fetch token balance.",
      [Ev.log "error" ("Error fetching token balance: " ++ "Non-base58 character")])
  ∧ balanceHandler netOk ("/balance " ++ "!!!") = [Ev.reply ("❌ Error: " ++ "Non-base58 character")]
  ∧ callSites (analyzeToken netOk "!!!" addr32).2 = callSites (getTokenInfoFromSolscan netOk addr32).2 :=
  invalid_address_behavior netOk "!!!" addr32 "Non-base58 character" (by decide) (by decide)

/-- Claim C7: when the price HTTP request fails, getCryptoPrices
discards the whole batch and fails with the one generic message
(no partial mapping is returned), and the /prices handler replies with
exactly one message, the error reply: no partial price list. -/
theorem prices_all_or_nothing (net : Net) (e : String)
    (h : net.coingeckoMarkets "usd" "solana,bitcoin,ethereum" = Except.error e) :
    getCryptoPrices net = (Except.error "Failed to fetch crypto prices.",
      [Ev.call siteMarkets ["usd", "solana,bitcoin,ethereum"] false,
       Ev.log "error" ("Error fetching crypto prices: " ++ e)])
  ∧ (dispatch net "/prices").filter isReply = [Ev.reply "❌ Error: Failed to fetch crypto prices."] := by
  have h1 : getCryptoPrices net = (Except.error "Failed to fetch crypto prices.",
      [Ev.call siteMarkets ["usd", "solana,bitcoin,ethereum"] false,
       Ev.log "error" ("Error fetching crypto prices: " ++ e)]) := by
    simp [getCryptoPrices, h]
  have hc : commandOf "/prices" = some Cmd.prices := rfl
  refine ⟨h1, ?_⟩
  simp [dispatch, hc, pricesHandler, h1, isReply]

/-- Witness for C7 at a concrete input: the price API answers HTTP 500
on net500. -/
theorem prices_all_or_nothing_witness :
    getCryptoPrices net500 = (Except.error "Failed to fetch crypto prices.",
      [Ev.call siteMarkets ["usd", "solana,bitcoin,ethereum"] false,
       Ev.log "error" ("Error fetching crypto prices: " ++ "Request failed with status code 500")])
  ∧ (dispatch net500 "/prices").filter isReply = [Ev.reply "❌ Error: Failed to fetch crypto prices."] :=
  prices_all_or_nothing net500 "Request failed with status code 500" rfl

/-- Every branch of the check handler ends in a chat reply. -/
theorem checkHandler_any_reply (net : Net) (text : String) :
    (checkHandler net text).any isReply = true := by
  simp only [checkHandler]
  split
  · simp [isReply]
  · split <;> simp [isReply]

/-- Every branch of the balance handler ends in a chat reply. -/
theorem balanceHandler_any_reply (net : Net) (text : String) :
    (balanceHandler net text).any isReply = true := by
  simp only [balanceHandler]
  split
  · simp [isReply]
  · split
    · simp [isReply]
    · split <;> simp [isReply]

/-- Every branch of the prices handler ends in a chat reply. -/
theorem pricesHandler_any_reply (net : Net) :
    (pricesHandler net).any isReply = true := by
  simp only [pricesHandler]
  split <;> simp [isReply]

/-- Every branch of the gas handler ends in a chat reply. -/
theorem gasHandler_any_reply (net : Net) :
    (gasHandler net).any isReply = true := by
  simp only [gasHandler]
  split <;> simp [isReply]

/-- Claim C6: every recognized command always produces a user-visible
reply, whatever the oracle answers (handlers are total: every failure
of an underlying call is caught and turned into a reply), and handling
is independent per message: the bot serves every earlier and later
message the same way regardless of any error inside this one. -/
theorem handlers_catch_errors (net : Net) (text : String) (cmd : Cmd)
    (h : commandOf text = some cmd) :
    (dispatch net text).any isReply = true
  ∧ ∀ pre post : List String,
      runBot net (pre ++ text :: post)
        = runBot net pre ++ dispatch net text :: runBot net post := by
  constructor
  · cases cmd <;>
      simp [dispatch, h, checkHandler_any_reply, balanceHandler_any_reply,
        pricesHandler_any_reply, gasHandler_any_reply, helpHandler, isReply]
  · intro pre post
    simp [runBot]

/-- Witness for C6 at a concrete input: /balance with a syntactically
invalid address yields a reply (the error message), and the bot still
serves the surrounding /help messages. -/
theorem handlers_catch_errors_witness :
    (dispatch netOk "/balance !!!").any isReply = true
  ∧ runBot netOk (["/help"] ++ "/balance !!!" :: ["/help"])
      = runBot netOk ["/help"] ++ dispatch netOk "/balance !!!" :: runBot netOk ["/help"] :=
  ⟨(handlers_catch_errors netOk "/balance !!!" Cmd.balance (by decide)).1,
   (handlers_catch_errors netOk "/balance !!!" Cmd.balance (by decide)).2 ["/help"] ["/help"]⟩

/-- When the analysis succeeds its trace is exactly the four outbound
calls, in the sequential order of the orchestrator. -/
theorem analyzeToken_ok_trace (net : Net) (w t : String) (a : Analysis)
    (h : (analyzeToken net w t).1 = Except.ok a) :
    (analyzeToken net w t).2 =
      [Ev.call siteSolscan [t] false,
       Ev.call siteTokenAccounts [w, t] false,
       Ev.call siteMarkets ["usd", "solana,bitcoin,ethereum"] false,
       Ev.call siteBlockhash [] false] := by
  cases h1 : net.solscanTokenInfo t <;>
    cases h2 : parsePubkey w <;>
    cases h3 : parsePubkey t <;>
    cases h4 : net.getTokenAccountsByOwner w t <;>
    cases h5 : net.coingeckoMarkets "usd" "solana,bitcoin,ethereum" <;>
    cases h6 : net.getRecentBlockhash <;>
    simp_all [analyzeToken, getTokenInfoFromSolscan, getTokenBalance,
      getCryptoPrices, getSolanaGasFee]

/-- Claim C9: in a successful /check handling the only price-API call
carries the hardcoded parameters usd and solana,bitcoin,ethereum
whatever token and wallet were queried (the queried token's own price
is never requested), and the final reply renders the Token Price field
from the solana entry of that batch. -/
theorem check_price_is_solana (net : Net) (text t w : String) (a : Analysis)
    (hcmd : commandOf text = some Cmd.check)
    (hargs : parseArgs text = [t, w])
    (hok : (analyzeToken net w t).1 = Except.ok a) :
    dispatch net text = Ev.reply "🔍 Analyzing the token. Please wait..."
        :: ((analyzeToken net w t).2 ++ [Ev.reply (checkReplyText a)])
  ∧ ((analyzeToken net w t).2).filter isMarketsCall
      = [Ev.call siteMarkets ["usd", "solana,bitcoin,ethereum"] false]
  ∧ checkReplyText a
      = "\n            🧾 **Token Analysis:**\n            - **Token Name**: " ++ (a.tokenInfo.name
        ++ ("\n            - **Token Symbol**: " ++ (a.tokenInfo.symbol
        ++ ("\n            - **Token Price**: $" ++ (jsNumStr (jsObjGet a.prices "solana")
        ++ ("\n            - **Your Balance**: " ++ (toString a.balance ++ (" " ++ (a.tokenInfo.symbol
        ++ ("\n            - **Gas Fee**: " ++ (toString a.gasFee ++ " SOL\n        "))))))))))) := by
  refine ⟨?_, ?_, rfl⟩
  · rcases hA : analyzeToken net w t with ⟨r, tr⟩
    rw [hA] at hok
    have hr : r = Except.ok a := hok
    subst hr
    simp [dispatch, hcmd, checkHandler, hargs, hA]
  · rw [analyzeToken_ok_trace net w t a hok]
    rfl

/-- Concrete /check message used by the C9 witness: both addresses are
the 32-ones key. -/
def textC9 : String :=
  "/check 11111111111111111111111111111111 11111111111111111111111111111111"

/-- The analysis the all-success oracle produces. -/
def aOk : Analysis :=
  ⟨tiFoo, 7, [("solana", 100), ("bitcoin", 200), ("ethereum", 300)],
   (5000 : Rat) / 1000000000⟩

/-- Witness for C9 at a concrete input: on the all-success oracle the
Token Price rendered is the solana batch price (100), not anything
derived from the queried token. -/
theorem check_price_is_solana_witness :
    dispatch netOk textC9 = Ev.reply "🔍 Analyzing the token. Please wait..."
        :: ((analyzeToken netOk addr32 addr32).2 ++ [Ev.reply (checkReplyText aOk)])
  ∧ ((analyzeToken netOk addr32 addr32).2).filter isMarketsCall
      = [Ev.call siteMarkets ["usd", "solana,bitcoin,ethereum"] false]
  ∧ checkReplyText aOk
      = "\n            🧾 **Token Analysis:**\n            - **Token Name**: " ++ (aOk.tokenInfo.name
        ++ ("\n            - **Token Symbol**: " ++ (aOk.tokenInfo.symbol
        ++ ("\n            - **Token Price**: $" ++ (jsNumStr (jsObjGet aOk.prices "solana")
        ++ ("\n            - **Your Balance**: " ++ (toString aOk.balance ++ (" " ++ (aOk.tokenInfo.symbol
        ++ ("\n            - **Gas Fee**: " ++ (toString aOk.gasFee ++ " SOL\n        "))))))))))) :=
  check_price_is_solana netOk textC9 addr32 addr32 aOk (by decide) (by decide) rfl

/-- Claim C10: arguments are the space-split pieces of the message
text without the command word, so a doubled space contributes an empty
argument that counts toward the arity check: on the message
/check--W1 (with two spaces) the arity check passes (no usage reply:
the handler proceeds to the analyzing reply) and the empty string is
forwarded as the token address to the underlying metadata client, the
only outbound call made. -/
theorem args_split_empty_forwarded :
    parseArgs "/check  W1" = ["", "W1"]
  ∧ ¬ ((parseArgs "/check  W1").length < 2)
  ∧ (checkHandler netOk "/check  W1").head?
      = some (Ev.reply "🔍 Analyzing the token. Please wait...")
  ∧ (checkHandler netOk "/check  W1").filter isCall
      = [Ev.call siteSolscan [""] false] := by decide
